import Mathlib

/-!
# Cost/constraint factory of xpp (`src/src/cost_constraint_factory.cc`)

A shallow embedding of `CostConstraintFactory`: the component trees its builders
assemble, and the dispatch of `GetConstraint` and `GetCost`.

The factory only assembles objects. The classes it instantiates
(`SplineStateConstraint`, `NodeCost`, ...) are defined in headers that are not
among the sources, so a constructed object is recorded as a node holding the
constructor's arguments, in the order of the call site.
-/

set_option linter.unusedVariables false

namespace xpp.opt

/-! ## Data model -/

/-- A C++ `double`. The factory never does arithmetic on the scalars it hands to
the components (total time, weight, durations); they are carried as rationals. -/
abbrev Scalar := Rat

abbrev VectorXd := List Scalar
abbrev Vector3d := VectorXd
abbrev Matrix3d := List (List Scalar)

/-- Sum of two vectors, `a + b`. -/
def VectorXd.add (a b : VectorXd) : VectorXd := List.zipWith (· + ·) a b

/-- Product matrix times vector, `M * v`. -/
def Matrix3d.mulVec (M : Matrix3d) (v : Vector3d) : Vector3d :=
  M.map fun row => (List.zipWith (· * ·) row v).sum

/-- The `enum class EndeffectorID` of `a_robot_interface.h`. -/
inductive EndeffectorID where
  | E0 | E1 | E2 | E3 | E4 | E5
  deriving DecidableEq

/-- The derivative orders the factory names (`kPos`, `kVel`, `kAcc`). -/
inductive MotionDerivative where
  | kPos | kVel | kAcc
  deriving DecidableEq

/-- Linear state: position, velocity, acceleration (`p_`, `v_`, `a_`). -/
structure StateLinXd where
  p_ : VectorXd
  v_ : VectorXd
  a_ : VectorXd
  deriving DecidableEq

/-- Boundary state of the base: linear and angular part. -/
structure State3dEuler where
  lin : StateLinXd
  ang : StateLinXd
  deriving DecidableEq

/-- Modelled from the spec: the class `Endeffectors` is missing; the spec gives a
mapping from end-effector id to a 3D position, "lookup by id only". -/
structure EndeffectorsPos where
  At : EndeffectorID → Vector3d

/-- The shared variable store, `opt_vars_`; the factory only passes the
reference on, so it is a handle. -/
structure OptVarsContainer where
  handle : Nat
  deriving DecidableEq

/-- Modelled from the spec: the class behind `MotionParamsPtr` is missing; each
field is the member, or the value of the accessor, the factory reads. -/
structure MotionParameters where
  robot_ee_ : List EndeffectorID
  GetTotalTime : Scalar
  GetBasePolyDurations : List Scalar
  dt_dynamic_constraint_ : Scalar
  GetMass : Scalar
  GetInertiaParameters : Matrix3d
  GetEECount : Nat
  GetNominalStanceInBase : EndeffectorsPos

/-- What the factory calls in `id::` and `AngularStateConverter`, whose
definitions are missing from the sources: taken as parameters. -/
structure Collaborators where
  base_linear : String
  base_angular : String
  GetEEMotionId : EndeffectorID → String
  GetEEForceId : EndeffectorID → String
  GetRotationMatrixBaseToWorld : Vector3d → Matrix3d

/-- The result of `Spline::BuildSpline(opt_vars, id, durations)`. -/
structure Spline where
  opt_vars : OptVarsContainer
  spline_id : String
  poly_durations : List Scalar
  deriving DecidableEq

/-- The static builder `Spline::BuildSpline`. -/
def Spline.BuildSpline (opt_vars : OptVarsContainer) (spline_id : String)
    (poly_durations : List Scalar) : Spline :=
  ⟨opt_vars, spline_id, poly_durations⟩

/-- The result of `std::make_shared<CentroidalModel>(mass, inertia, ee_count)`. -/
structure CentroidalModel where
  mass : Scalar
  inertia : Matrix3d
  ee_count : Nat
  deriving DecidableEq

/-- The value a `SplineStateConstraint` is given at the call site: a linear
state (`initial_base_.lin`) or a position vector (`VectorXd(initial_ee_W_.At(ee))`,
`ee_pos_W`). -/
inductive StateTarget where
  | state (s : StateLinXd)
  | position (p : VectorXd)
  deriving DecidableEq

/-- A component of the optimisation problem: the closed set of variants the
factory instantiates, each holding its constructor arguments. -/
inductive Component where
  | Composite (name : String) (is_constraint : Bool) (components : List Component)
  | SplineStateConstraint (opt_vars : OptVarsContainer) (spline : Spline) (t : Scalar)
      (state : StateTarget) (derivs : List MotionDerivative)
  | SplineJunctionConstraint (opt_vars : OptVarsContainer) (spline_id : String)
      (durations : List Scalar) (derivatives : List MotionDerivative)
  | DynamicConstraint (opt_vars : OptVarsContainer) (dynamic_model : CentroidalModel)
      (T : Scalar) (dt : Scalar)
  | RangeOfMotionBox (opt_vars : OptVarsContainer) (params : MotionParameters)
      (ee : EndeffectorID)
  | DurationConstraint (opt_vars : OptVarsContainer) (T : Scalar) (ee : EndeffectorID)
  | NodeCost (opt_vars : OptVarsContainer) (nodes_id : String)
  | SoftConstraint (constraint : Component) (weight : Scalar)

/-- Modelled from the spec: the class `Composite` is missing; the spec gives a
named component of a kind (hard constraint or soft cost) with an ordered child
sequence. This is a `Composite` under construction, as the builders hold it
through `std::shared_ptr<Composite>`; its Boolean constructor argument is the
kind, `true` in every builder of a hard constraint and `false` in the builder of
a cost. -/
structure Composite where
  name : String
  is_constraint : Bool
  components : List Component

/-- The method `Composite::AddComponent`: appends to the ordered child sequence. -/
def Composite.AddComponent (c : Composite) (child : Component) : Composite :=
  { c with components := c.components ++ [child] }

/-- The conversion of `std::shared_ptr<Composite>` to `ComponentPtr` on return. -/
def Composite.toComponent (c : Composite) : Component :=
  .Composite c.name c.is_constraint c.components

/-- True on a `Composite` node, false on every leaf and on the cost wrapper. -/
def Component.isComposite : Component → Bool
  | .Composite _ _ _ => true
  | _ => false

/-- The diagnostic name of a `Composite`; none for the other variants, whose
names are set in constructors that are not among the sources. -/
def Component.compositeName : Component → Option String
  | .Composite name _ _ => some name
  | _ => none

/-- The kind flag of a `Composite`: `some true` for a hard constraint. -/
def Component.compositeIsConstraint : Component → Option Bool
  | .Composite _ k _ => some k
  | _ => none

/-- The direct children of a `Composite`; a leaf has none. -/
def Component.children : Component → List Component
  | .Composite _ _ cs => cs
  | _ => []

/-- The spline id a `NodeCost` ranges over. -/
def Component.nodeCostId : Component → Option String
  | .NodeCost _ i => some i
  | _ => none

/-- The derivative set of a spline state or junction constraint. -/
def Component.derivs : Component → Option (List MotionDerivative)
  | .SplineStateConstraint _ _ _ _ d => some d
  | .SplineJunctionConstraint _ _ _ d => some d
  | _ => none

/-- The enumerators of `ConstraintName` that `GetConstraint` switches on. The
enum is declared in a header that is not among the sources: `other k` stands for
any further enumerator, or any other value of the enum type. -/
inductive ConstraintName where
  | State | JunctionCom | Dynamic | RomBox | TotalTime
  | other (k : Nat)
  deriving DecidableEq

/-- The enumerators of `CostName` that `GetCost` switches on; `other k` as for
`ConstraintName`. -/
inductive CostName where
  | ForcesCostID | ComCostID | RangOfMotionCostID
  | other (k : Nat)
  deriving DecidableEq

/-- A thrown `std::runtime_error` with its message. -/
inductive FactoryError where
  | runtime_error (what : String)
  deriving DecidableEq

/-- The state of the factory: the members `Init` writes. -/
structure CostConstraintFactory where
  opt_vars_ : OptVarsContainer
  params : MotionParameters
  initial_ee_W_ : EndeffectorsPos
  initial_base_ : State3dEuler
  final_base_ : State3dEuler

/-! ## Operations -/

/-- The method `CostConstraintFactory::Init`: replaces every member. -/
def CostConstraintFactory.Init (_self : CostConstraintFactory) (opt_vars : OptVarsContainer)
    (_params : MotionParameters) (ee_pos : EndeffectorsPos)
    (initial_base final_base : State3dEuler) : CostConstraintFactory :=
  { opt_vars_ := opt_vars
    params := _params
    initial_ee_W_ := ee_pos
    initial_base_ := initial_base
    final_base_ := final_base }

/-- The builder `CostConstraintFactory::MakeStateConstraint`. In the loop both
`AddComponent` calls are commented out in the source: the constraints are built
and dropped. -/
def MakeStateConstraint (ids : Collaborators) (f : CostConstraintFactory) : Component :=
  let constraints : Composite := ⟨"State Initial Constraints", true, []⟩
  let base_poly_durations := f.params.GetBasePolyDurations
  let derivs : List MotionDerivative := [.kPos, .kVel]
  let spline_lin := Spline.BuildSpline f.opt_vars_ ids.base_linear base_poly_durations
  let spline_ang := Spline.BuildSpline f.opt_vars_ ids.base_angular base_poly_durations
  -- initial base constraints
  let t : Scalar := 0
  let constraints := constraints.AddComponent
    (.SplineStateConstraint f.opt_vars_ spline_lin t (.state f.initial_base_.lin) derivs)
  let constraints := constraints.AddComponent
    (.SplineStateConstraint f.opt_vars_ spline_ang t (.state f.initial_base_.ang) derivs)
  -- final base constraints
  let T := f.params.GetTotalTime
  let constraints := constraints.AddComponent
    (.SplineStateConstraint f.opt_vars_ spline_lin T (.state f.final_base_.lin) derivs)
  let constraints := constraints.AddComponent
    (.SplineStateConstraint f.opt_vars_ spline_ang T (.state f.final_base_.ang) derivs)
  -- endeffector constraints
  let constraints := f.params.robot_ee_.foldl (fun (constraints : Composite) ee =>
    let spline_ee := Spline.BuildSpline f.opt_vars_ (ids.GetEEMotionId ee) []
    let deriv_ee : List MotionDerivative := [.kPos]
    let c := Component.SplineStateConstraint f.opt_vars_ spline_ee t
      (.position (f.initial_ee_W_.At ee)) deriv_ee
    -- constraints->AddComponent(c);   (commented out, line 118)
    let w_R_b := ids.GetRotationMatrixBaseToWorld f.final_base_.ang.p_
    let nominal_B := f.params.GetNominalStanceInBase
    let ee_pos_W := VectorXd.add f.final_base_.lin.p_ (Matrix3d.mulVec w_R_b (nominal_B.At ee))
    -- constraints->AddComponent(SplineStateConstraint(opt_vars_, spline_ee, T,
    --   ee_pos_W, deriv_ee));        (commented out, line 124)
    constraints) constraints
  constraints.toComponent

/-- The builder `CostConstraintFactory::MakeJunctionConstraint`. The body of the loop over
`robot_ee_` is commented out in the source. -/
def MakeJunctionConstraint (ids : Collaborators) (f : CostConstraintFactory) : Component :=
  let junction_constraints : Composite := ⟨"Junctions Constraints", true, []⟩
  let derivatives : List MotionDerivative := [.kPos, .kVel, .kAcc]
  let durations_base := f.params.GetBasePolyDurations
  let junction_constraints := junction_constraints.AddComponent
    (.SplineJunctionConstraint f.opt_vars_ ids.base_linear durations_base derivatives)
  let junction_constraints := junction_constraints.AddComponent
    (.SplineJunctionConstraint f.opt_vars_ ids.base_angular durations_base derivatives)
  let junction_constraints := f.params.robot_ee_.foldl
    (fun (junction_constraints : Composite) ee => junction_constraints) junction_constraints
  junction_constraints.toComponent

/-- The builder `CostConstraintFactory::MakeDynamicConstraint`: returns the
`DynamicConstraint` itself. -/
def MakeDynamicConstraint (f : CostConstraintFactory) : Component :=
  let dynamic_model : CentroidalModel :=
    ⟨f.params.GetMass, f.params.GetInertiaParameters, f.params.GetEECount⟩
  let dt := f.params.dt_dynamic_constraint_
  let constraint := Component.DynamicConstraint f.opt_vars_ dynamic_model f.params.GetTotalTime dt
  constraint

/-- The builder `CostConstraintFactory::MakeRangeOfMotionBoxConstraint`. -/
def MakeRangeOfMotionBoxConstraint (f : CostConstraintFactory) : Component :=
  let c : Composite := ⟨"Range-of-Motion Constraints", true, []⟩
  let T := f.params.GetTotalTime
  let c := f.params.robot_ee_.foldl (fun (c : Composite) ee =>
    let rom_constraints := Component.RangeOfMotionBox f.opt_vars_ f.params ee
    c.AddComponent rom_constraints) c
  c.toComponent

/-- The builder `CostConstraintFactory::MakeTotalTimeConstraint`. The name string is the
one the source gives, the same as in `MakeRangeOfMotionBoxConstraint`. -/
def MakeTotalTimeConstraint (f : CostConstraintFactory) : Component :=
  let c : Composite := ⟨"Range-of-Motion Constraints", true, []⟩
  let T := f.params.GetTotalTime
  let c := f.params.robot_ee_.foldl (fun (c : Composite) ee =>
    let duration_constraint := Component.DurationConstraint f.opt_vars_ T ee
    c.AddComponent duration_constraint) c
  c.toComponent

/-- The builder `CostConstraintFactory::MakeForcesCost`; `weight` is not read. -/
def MakeForcesCost (ids : Collaborators) (f : CostConstraintFactory) (weight : Scalar) :
    Component :=
  let cost : Composite := ⟨"Forces Cost", false, []⟩
  let cost := f.params.robot_ee_.foldl (fun (cost : Composite) ee =>
    let f_cost := Component.NodeCost f.opt_vars_ (ids.GetEEForceId ee)
    cost.AddComponent f_cost) cost
  cost.toComponent

/-- The builder `CostConstraintFactory::MakeMotionCost`; the Composite version is commented
out in the source, and `weight` is not read. -/
def MakeMotionCost (ids : Collaborators) (f : CostConstraintFactory) (weight : Scalar) :
    Component :=
  .NodeCost f.opt_vars_ ids.base_linear

/-- The method `CostConstraintFactory::ToCost`: wraps a constraint in a
`SoftConstraint` with the weight. -/
def ToCost (constraint : Component) (weight : Scalar) : Component :=
  .SoftConstraint constraint weight

/-- The dispatch `CostConstraintFactory::GetConstraint`; the `default` branch
throws. -/
def GetConstraint (ids : Collaborators) (f : CostConstraintFactory) (name : ConstraintName) :
    Except FactoryError Component :=
  match name with
  | .State => .ok (MakeStateConstraint ids f)
  | .JunctionCom => .ok (MakeJunctionConstraint ids f)
  | .Dynamic => .ok (MakeDynamicConstraint f)
  | .RomBox => .ok (MakeRangeOfMotionBoxConstraint f)
  | .TotalTime => .ok (MakeTotalTimeConstraint f)
  | _ => .error (.runtime_error "constraint not defined!")

/-- The dispatch `CostConstraintFactory::GetCost`; the `default` branch throws. -/
def GetCost (ids : Collaborators) (f : CostConstraintFactory) (name : CostName)
    (weight : Scalar) : Except FactoryError Component :=
  match name with
  | .ForcesCostID => .ok (MakeForcesCost ids f weight)
  | .ComCostID => .ok (MakeMotionCost ids f weight)
  | .RangOfMotionCostID => .ok (ToCost (MakeRangeOfMotionBoxConstraint f) weight)
  | _ => .error (.runtime_error "cost not defined!")

/-! ## The disabled end-effector constraints, and sample inputs -/

/-- The component `c` that line 115 of the source builds for `ee`: the initial
position constraint of the end-effector, whose `AddComponent` is commented out. -/
def initialEndeffectorConstraint (ids : Collaborators) (f : CostConstraintFactory)
    (ee : EndeffectorID) : Component :=
  .SplineStateConstraint f.opt_vars_ (Spline.BuildSpline f.opt_vars_ (ids.GetEEMotionId ee) [])
    0 (.position (f.initial_ee_W_.At ee)) [.kPos]

/-- The component that the commented-out line 124 of the source would add for
`ee`: the final position constraint of the end-effector at time `T`. -/
def finalEndeffectorConstraint (ids : Collaborators) (f : CostConstraintFactory)
    (ee : EndeffectorID) : Component :=
  .SplineStateConstraint f.opt_vars_ (Spline.BuildSpline f.opt_vars_ (ids.GetEEMotionId ee) [])
    f.params.GetTotalTime
    (.position (VectorXd.add f.final_base_.lin.p_
      (Matrix3d.mulVec (ids.GetRotationMatrixBaseToWorld f.final_base_.ang.p_)
        (f.params.GetNominalStanceInBase.At ee))))
    [.kPos]

/-- Sample variable names, one distinct string per end-effector. -/
def sampleIds : Collaborators where
  base_linear := "base_linear"
  base_angular := "base_angular"
  GetEEMotionId := fun ee => match ee with
    | .E0 => "ee_motion_0" | .E1 => "ee_motion_1" | .E2 => "ee_motion_2"
    | .E3 => "ee_motion_3" | .E4 => "ee_motion_4" | .E5 => "ee_motion_5"
  GetEEForceId := fun ee => match ee with
    | .E0 => "ee_force_0" | .E1 => "ee_force_1" | .E2 => "ee_force_2"
    | .E3 => "ee_force_3" | .E4 => "ee_force_4" | .E5 => "ee_force_5"
  GetRotationMatrixBaseToWorld := fun _ => [[1, 0, 0], [0, 1, 0], [0, 0, 1]]

/-- A state at rest at position `p`. -/
def restAt (p : Vector3d) : StateLinXd := ⟨p, [0, 0, 0], [0, 0, 0]⟩

/-- Sample parameters for a robot with the end-effectors `ees` and total time `T`. -/
def sampleParams (ees : List EndeffectorID) (T : Scalar) : MotionParameters where
  robot_ee_ := ees
  GetTotalTime := T
  GetBasePolyDurations := [T]
  dt_dynamic_constraint_ := T
  GetMass := 20
  GetInertiaParameters := [[1, 0, 0], [0, 1, 0], [0, 0, 1]]
  GetEECount := ees.length
  GetNominalStanceInBase := ⟨fun _ => [0, 0, 0]⟩

/-- A sample factory state for a robot with the end-effectors `ees` and total
time `T`: base at rest at the origin, moving one unit along x. -/
def sampleFactory (ees : List EndeffectorID) (T : Scalar) : CostConstraintFactory where
  opt_vars_ := ⟨0⟩
  params := sampleParams ees T
  initial_ee_W_ := ⟨fun _ => [0, 0, 0]⟩
  initial_base_ := ⟨restAt [0, 0, 0], restAt [0, 0, 0]⟩
  final_base_ := ⟨restAt [1, 0, 0], restAt [0, 0, 0]⟩

/-! ## Lemmas on the builders -/

/-- A loop that appends one component per element builds the mapped list. -/
theorem foldl_AddComponent {α : Type} (g : α → Component) (l : List α) (c : Composite) :
    l.foldl (fun c x => c.AddComponent (g x)) c
      = ⟨c.name, c.is_constraint, c.components ++ l.map g⟩ := by
  induction l generalizing c with
  | nil => simp
  | cons x xs ih =>
    rw [List.foldl_cons, ih]
    simp [Composite.AddComponent]

/-- A loop whose body adds nothing leaves the Composite as it was. -/
theorem foldl_keep {α : Type} (l : List α) (c : Composite) :
    l.foldl (fun c _ => c) c = c := by
  induction l with
  | nil => rfl
  | cons x xs ih => simp

theorem MakeStateConstraint_eq (ids : Collaborators) (f : CostConstraintFactory) :
    MakeStateConstraint ids f = .Composite "State Initial Constraints" true
      [ .SplineStateConstraint f.opt_vars_
          (Spline.BuildSpline f.opt_vars_ ids.base_linear f.params.GetBasePolyDurations)
          0 (.state f.initial_base_.lin) [.kPos, .kVel],
        .SplineStateConstraint f.opt_vars_
          (Spline.BuildSpline f.opt_vars_ ids.base_angular f.params.GetBasePolyDurations)
          0 (.state f.initial_base_.ang) [.kPos, .kVel],
        .SplineStateConstraint f.opt_vars_
          (Spline.BuildSpline f.opt_vars_ ids.base_linear f.params.GetBasePolyDurations)
          f.params.GetTotalTime (.state f.final_base_.lin) [.kPos, .kVel],
        .SplineStateConstraint f.opt_vars_
          (Spline.BuildSpline f.opt_vars_ ids.base_angular f.params.GetBasePolyDurations)
          f.params.GetTotalTime (.state f.final_base_.ang) [.kPos, .kVel] ] := by
  simp [MakeStateConstraint, foldl_keep, Composite.AddComponent, Composite.toComponent]

theorem MakeJunctionConstraint_eq (ids : Collaborators) (f : CostConstraintFactory) :
    MakeJunctionConstraint ids f = .Composite "Junctions Constraints" true
      [ .SplineJunctionConstraint f.opt_vars_ ids.base_linear f.params.GetBasePolyDurations
          [.kPos, .kVel, .kAcc],
        .SplineJunctionConstraint f.opt_vars_ ids.base_angular f.params.GetBasePolyDurations
          [.kPos, .kVel, .kAcc] ] := by
  simp [MakeJunctionConstraint, foldl_keep, Composite.AddComponent, Composite.toComponent]

theorem MakeRangeOfMotionBoxConstraint_eq (f : CostConstraintFactory) :
    MakeRangeOfMotionBoxConstraint f = .Composite "Range-of-Motion Constraints" true
      (f.params.robot_ee_.map fun ee => .RangeOfMotionBox f.opt_vars_ f.params ee) := by
  simp [MakeRangeOfMotionBoxConstraint, foldl_AddComponent, Composite.toComponent]

theorem MakeTotalTimeConstraint_eq (f : CostConstraintFactory) :
    MakeTotalTimeConstraint f = .Composite "Range-of-Motion Constraints" true
      (f.params.robot_ee_.map fun ee =>
        .DurationConstraint f.opt_vars_ f.params.GetTotalTime ee) := by
  simp [MakeTotalTimeConstraint, foldl_AddComponent, Composite.toComponent]

theorem MakeForcesCost_eq (ids : Collaborators) (f : CostConstraintFactory) (weight : Scalar) :
    MakeForcesCost ids f weight = .Composite "Forces Cost" false
      (f.params.robot_ee_.map fun ee => .NodeCost f.opt_vars_ (ids.GetEEForceId ee)) := by
  simp [MakeForcesCost, foldl_AddComponent, Composite.toComponent]

theorem sampleIds_GetEEForceId_injective : Function.Injective sampleIds.GetEEForceId := by
  intro a b h
  cases a <;> cases b <;> simp [sampleIds] at h ⊢

/-! ## Dispatch -/

/-- C1: `GetConstraint` throws the error "constraint not defined!" exactly for
the names other than State, JunctionCom, Dynamic, RomBox, TotalTime, and returns a
component exactly for those five; `GetCost` throws "cost not defined!" exactly
for the names other than ForcesCostID, ComCostID, RangOfMotionCostID, whatever the
weight, and returns a component exactly for those three. -/
theorem C1_unknown_name_is_configuration_error (ids : Collaborators)
    (f : CostConstraintFactory) :
    (∀ name : ConstraintName,
      (GetConstraint ids f name = .error (.runtime_error "constraint not defined!")
        ↔ ¬ (name = .State ∨ name = .JunctionCom ∨ name = .Dynamic ∨ name = .RomBox
              ∨ name = .TotalTime))
      ∧ ((∃ c, GetConstraint ids f name = .ok c)
        ↔ (name = .State ∨ name = .JunctionCom ∨ name = .Dynamic ∨ name = .RomBox
              ∨ name = .TotalTime)))
    ∧ (∀ (name : CostName) (weight : Scalar),
      (GetCost ids f name weight = .error (.runtime_error "cost not defined!")
        ↔ ¬ (name = .ForcesCostID ∨ name = .ComCostID ∨ name = .RangOfMotionCostID))
      ∧ ((∃ c, GetCost ids f name weight = .ok c)
        ↔ (name = .ForcesCostID ∨ name = .ComCostID ∨ name = .RangOfMotionCostID))) := by
  refine ⟨fun name => ?_, fun name weight => ?_⟩
  · cases name <;> simp [GetConstraint]
  · cases name <;> simp [GetCost]

/-! ## State constraints -/

/-- C2, as the claim states it, fails: for a robot with the two end-effectors
E0 and E1 the Composite that `GetConstraint(State)` returns has 4 children, not
4 + 2. -/
theorem C2_state_child_count_counterexample :
    ∃ c, GetConstraint sampleIds (sampleFactory [.E0, .E1] 1) .State = .ok c
      ∧ c.isComposite = true
      ∧ (sampleFactory [.E0, .E1] 1).params.robot_ee_.length = 2
      ∧ c.children.length = 4
      ∧ c.children.length ≠ 4 + (sampleFactory [.E0, .E1] 1).params.robot_ee_.length := by
  refine ⟨_, rfl, ?_⟩
  rw [MakeStateConstraint_eq]
  simp [Component.isComposite, Component.children, sampleFactory, sampleParams]

/-- C2, amended: for every factory state, whatever the number of end-effectors,
`GetConstraint(State)` returns the hard-constraint Composite "State Initial
Constraints" with exactly 4 direct children, the base boundary constraints; the
initial-position constraint of an end-effector is not among them. The same count
holds right after any `Init`. -/
theorem C2_state_constraint_has_four_children (ids : Collaborators)
    (f : CostConstraintFactory) :
    GetConstraint ids f .State = .ok (MakeStateConstraint ids f)
      ∧ (MakeStateConstraint ids f).compositeName = some "State Initial Constraints"
      ∧ (MakeStateConstraint ids f).compositeIsConstraint = some true
      ∧ (MakeStateConstraint ids f).children.length = 4
      ∧ (MakeStateConstraint ids f).children.map Component.derivs
          = List.replicate 4 (some [.kPos, .kVel])
      ∧ (∀ ee, initialEndeffectorConstraint ids f ee ∉ (MakeStateConstraint ids f).children)
      ∧ ∀ opt_vars params ee_pos initial_base final_base,
          (GetConstraint ids (f.Init opt_vars params ee_pos initial_base final_base) .State).map
            (fun c => c.children.length) = .ok 4 := by
  refine ⟨rfl, ?_⟩
  simp only [GetConstraint, MakeStateConstraint_eq]
  simp [Component.compositeName, Component.compositeIsConstraint, Component.children,
    Component.derivs, initialEndeffectorConstraint, Except.map]

/-- C9: the children of the Composite that `MakeStateConstraint` returns are, in
this order, the base-linear spline at time 0 pinned to `initial_base_.lin`, the
base-angular spline at time 0 pinned to `initial_base_.ang`, the base-linear
spline at time `T = GetTotalTime()` pinned to `final_base_.lin`, and the
base-angular spline at time `T` pinned to `final_base_.ang`; each has the
derivative set {position, velocity}, acceleration is in none of them, and the
final end-effector constraint at time `T` is not a child for any end-effector. -/
theorem C9_state_constraint_base_boundaries (ids : Collaborators)
    (f : CostConstraintFactory) :
    (MakeStateConstraint ids f).children.take 4 =
      [ .SplineStateConstraint f.opt_vars_
          (Spline.BuildSpline f.opt_vars_ ids.base_linear f.params.GetBasePolyDurations)
          0 (.state f.initial_base_.lin) [.kPos, .kVel],
        .SplineStateConstraint f.opt_vars_
          (Spline.BuildSpline f.opt_vars_ ids.base_angular f.params.GetBasePolyDurations)
          0 (.state f.initial_base_.ang) [.kPos, .kVel],
        .SplineStateConstraint f.opt_vars_
          (Spline.BuildSpline f.opt_vars_ ids.base_linear f.params.GetBasePolyDurations)
          f.params.GetTotalTime (.state f.final_base_.lin) [.kPos, .kVel],
        .SplineStateConstraint f.opt_vars_
          (Spline.BuildSpline f.opt_vars_ ids.base_angular f.params.GetBasePolyDurations)
          f.params.GetTotalTime (.state f.final_base_.ang) [.kPos, .kVel] ]
      ∧ (MakeStateConstraint ids f).children.drop 4 = []
      ∧ ((MakeStateConstraint ids f).children.map Component.derivs).all
          (fun d => d == some [.kPos, .kVel]) = true
      ∧ ((MakeStateConstraint ids f).children.map Component.derivs).any
          (fun d => match d with
            | some ds => ds.contains .kAcc
            | none => true) = false
      ∧ ∀ ee, finalEndeffectorConstraint ids f ee ∉ (MakeStateConstraint ids f).children := by
  rw [MakeStateConstraint_eq]
  simp [Component.children, Component.derivs, finalEndeffectorConstraint]

/-! ## Junction constraints -/

/-- C8: `MakeJunctionConstraint` returns the hard-constraint Composite with
exactly two children, a `SplineJunctionConstraint` on `base_linear` then one on
`base_angular`, both with the base polynomial durations of the parameters and
the derivative set {position, velocity, acceleration}; replacing `robot_ee_` by
any other list of end-effectors leaves the result unchanged. -/
theorem C8_junction_constraint_base_only (ids : Collaborators)
    (f : CostConstraintFactory) :
    MakeJunctionConstraint ids f = .Composite "Junctions Constraints" true
        [ .SplineJunctionConstraint f.opt_vars_ ids.base_linear f.params.GetBasePolyDurations
            [.kPos, .kVel, .kAcc],
          .SplineJunctionConstraint f.opt_vars_ ids.base_angular f.params.GetBasePolyDurations
            [.kPos, .kVel, .kAcc] ]
      ∧ (MakeJunctionConstraint ids f).compositeIsConstraint = some true
      ∧ (MakeJunctionConstraint ids f).children.length = 2
      ∧ ∀ ees : List EndeffectorID,
          MakeJunctionConstraint ids { f with params := { f.params with robot_ee_ := ees } }
            = MakeJunctionConstraint ids f := by
  refine ⟨MakeJunctionConstraint_eq ids f, ?_, ?_, fun ees => ?_⟩
  · rw [MakeJunctionConstraint_eq]; rfl
  · rw [MakeJunctionConstraint_eq]; rfl
  · rw [MakeJunctionConstraint_eq, MakeJunctionConstraint_eq]

/-! ## Per-end-effector builders -/

/-- C3: `MakeTotalTimeConstraint` returns a Composite whose children are, in
`robot_ee_` order, one `DurationConstraint` per end-effector, the i-th built from
`(T, robot_ee_[i])` with `T = GetTotalTime()`; the child count is the length of
`robot_ee_`; with `robot_ee_ = {E0,E1,E2,E3}` and total time 1 there are the 4
children with `T = 1`, and with an empty `robot_ee_` there is no child. -/
theorem C3_total_time_one_duration_constraint_per_ee (f : CostConstraintFactory) :
    (MakeTotalTimeConstraint f).isComposite = true
      ∧ (MakeTotalTimeConstraint f).children
          = f.params.robot_ee_.map
              (fun ee => .DurationConstraint f.opt_vars_ f.params.GetTotalTime ee)
      ∧ (MakeTotalTimeConstraint f).children.length = f.params.robot_ee_.length
      ∧ (MakeTotalTimeConstraint
            { f with params :=
                { f.params with robot_ee_ := [.E0, .E1, .E2, .E3], GetTotalTime := 1 } }).children
          = [ .DurationConstraint f.opt_vars_ 1 .E0, .DurationConstraint f.opt_vars_ 1 .E1,
              .DurationConstraint f.opt_vars_ 1 .E2, .DurationConstraint f.opt_vars_ 1 .E3 ]
      ∧ (MakeTotalTimeConstraint
            { f with params := { f.params with robot_ee_ := [] } }).children = [] := by
  simp only [MakeTotalTimeConstraint_eq]
  simp [Component.isComposite, Component.children]

/-- C4: for every list `robot_ee_`, with or without repeated ids,
`MakeForcesCost` returns the cost Composite "Forces Cost" (kind flag false, not a
hard constraint) whose children are, in `robot_ee_` order, one `NodeCost` per
element over `GetEEForceId(ee)`, so as many children as `robot_ee_` has elements
(2 for a list of 2). Only the last part is conditional: when the ids of
`robot_ee_` are pairwise distinct and `GetEEForceId` is injective, the
force-spline ids of the children are pairwise distinct. -/
theorem C4_forces_cost_one_node_cost_per_ee (ids : Collaborators)
    (f : CostConstraintFactory) (weight : Scalar) :
    MakeForcesCost ids f weight = .Composite "Forces Cost" false
        (f.params.robot_ee_.map fun ee => .NodeCost f.opt_vars_ (ids.GetEEForceId ee))
      ∧ (MakeForcesCost ids f weight).compositeIsConstraint = some false
      ∧ (MakeForcesCost ids f weight).children.length = f.params.robot_ee_.length
      ∧ (MakeForcesCost ids f weight).children.map Component.nodeCostId
          = f.params.robot_ee_.map (fun ee => some (ids.GetEEForceId ee))
      ∧ (∀ e1 e2 : EndeffectorID,
          (MakeForcesCost ids { f with params := { f.params with robot_ee_ := [e1, e2] } }
            weight).children
            = [.NodeCost f.opt_vars_ (ids.GetEEForceId e1),
               .NodeCost f.opt_vars_ (ids.GetEEForceId e2)])
      ∧ (f.params.robot_ee_.Nodup → Function.Injective ids.GetEEForceId →
          ((MakeForcesCost ids f weight).children.map Component.nodeCostId).Nodup) := by
  have hmap : (MakeForcesCost ids f weight).children.map Component.nodeCostId
      = f.params.robot_ee_.map (fun ee => some (ids.GetEEForceId ee)) := by
    rw [MakeForcesCost_eq]
    simp [Component.children, Component.nodeCostId]
  refine ⟨MakeForcesCost_eq ids f weight, ?_, ?_, hmap, fun e1 e2 => ?_,
    fun hdistinct hinj => ?_⟩
  · rw [MakeForcesCost_eq]; rfl
  · rw [MakeForcesCost_eq]; simp [Component.children]
  · rw [MakeForcesCost_eq]; simp [Component.children]
  · rw [hmap]
    exact hdistinct.map (fun a b h => hinj (Option.some.inj h))

/-- C4 on sample inputs. At a biped, `robot_ee_ = {E0, E1}` with the sample ids,
the forces cost has the 2 children over "ee_force_0" and "ee_force_1", two
distinct ids. With the repeated id in `robot_ee_ = {E3, E1, E3}` it has 3
children, in the order of the list. -/
theorem C4_forces_cost_witness :
    (sampleFactory [.E0, .E1] 1).params.robot_ee_.Nodup
      ∧ Function.Injective sampleIds.GetEEForceId
      ∧ (MakeForcesCost sampleIds (sampleFactory [.E0, .E1] 1) 3).children.length = 2
      ∧ (MakeForcesCost sampleIds (sampleFactory [.E0, .E1] 1) 3).children.map
            Component.nodeCostId = [some "ee_force_0", some "ee_force_1"]
      ∧ ((MakeForcesCost sampleIds (sampleFactory [.E0, .E1] 1) 3).children.map
            Component.nodeCostId).Nodup
      ∧ (MakeForcesCost sampleIds (sampleFactory [.E3, .E1, .E3] 1) 3).children.length = 3
      ∧ (MakeForcesCost sampleIds (sampleFactory [.E3, .E1, .E3] 1) 3).children.map
            Component.nodeCostId = [some "ee_force_3", some "ee_force_1", some "ee_force_3"] := by
  have hd : (sampleFactory [.E0, .E1] 1).params.robot_ee_.Nodup := by
    simp [sampleFactory, sampleParams]
  have h := C4_forces_cost_one_node_cost_per_ee sampleIds (sampleFactory [.E0, .E1] 1) 3
  have h3 := C4_forces_cost_one_node_cost_per_ee sampleIds (sampleFactory [.E3, .E1, .E3] 1) 3
  exact ⟨hd, sampleIds_GetEEForceId_injective, h.2.2.1, h.2.2.2.1,
    h.2.2.2.2.2 hd sampleIds_GetEEForceId_injective, h3.2.2.1, h3.2.2.2.1⟩

/-- C5: `GetCost(RangOfMotionCostID, w)` returns the soft-constraint wrapper with
weight `w` around the very component `GetConstraint(RomBox)` returns on the same
factory state, which is the hard-constraint Composite with one `RangeOfMotionBox`
child per end-effector of `robot_ee_`, in `robot_ee_` order. -/
theorem C5_range_of_motion_cost_wraps_constraint (ids : Collaborators)
    (f : CostConstraintFactory) (w : Scalar) :
    GetConstraint ids f .RomBox = .ok (MakeRangeOfMotionBoxConstraint f)
      ∧ GetCost ids f .RangOfMotionCostID w
          = .ok (.SoftConstraint (MakeRangeOfMotionBoxConstraint f) w)
      ∧ MakeRangeOfMotionBoxConstraint f = .Composite "Range-of-Motion Constraints" true
          (f.params.robot_ee_.map fun ee => .RangeOfMotionBox f.opt_vars_ f.params ee)
      ∧ (MakeRangeOfMotionBoxConstraint f).compositeIsConstraint = some true
      ∧ (MakeRangeOfMotionBoxConstraint f).children.length = f.params.robot_ee_.length := by
  refine ⟨rfl, rfl, MakeRangeOfMotionBoxConstraint_eq f, ?_, ?_⟩
  · rw [MakeRangeOfMotionBoxConstraint_eq]; rfl
  · rw [MakeRangeOfMotionBoxConstraint_eq]; simp [Component.children]

/-! ## Roots and names of the returned trees -/

/-- C6, as the claim states it, fails: on the sample biped `GetConstraint(Dynamic)`
returns a bare `DynamicConstraint` and `GetCost(ComCostID, 1)` a bare `NodeCost`;
neither root is a Composite. -/
theorem C6_root_is_composite_counterexample :
    (∃ c, GetConstraint sampleIds (sampleFactory [.E0, .E1] 1) .Dynamic = .ok c
        ∧ c.isComposite = false)
      ∧ (∃ c, GetCost sampleIds (sampleFactory [.E0, .E1] 1) .ComCostID 1 = .ok c
        ∧ c.isComposite = false) :=
  ⟨⟨_, rfl, rfl⟩, ⟨_, rfl, rfl⟩⟩

/-- C6, amended: for the constraint names State, JunctionCom, RomBox, TotalTime
and the cost name ForcesCostID the root of the returned tree is a Composite;
for Dynamic the root is the `DynamicConstraint` leaf itself and for ComCostID
it is the `NodeCost` leaf over `base_linear`. -/
theorem C6_roots_of_returned_trees (ids : Collaborators) (f : CostConstraintFactory)
    (weight : Scalar) :
    (GetConstraint ids f .State).map Component.isComposite = .ok true
      ∧ (GetConstraint ids f .JunctionCom).map Component.isComposite = .ok true
      ∧ (GetConstraint ids f .RomBox).map Component.isComposite = .ok true
      ∧ (GetConstraint ids f .TotalTime).map Component.isComposite = .ok true
      ∧ (GetCost ids f .ForcesCostID weight).map Component.isComposite = .ok true
      ∧ GetConstraint ids f .Dynamic
          = .ok (.DynamicConstraint f.opt_vars_
              ⟨f.params.GetMass, f.params.GetInertiaParameters, f.params.GetEECount⟩
              f.params.GetTotalTime f.params.dt_dynamic_constraint_)
      ∧ (GetConstraint ids f .Dynamic).map Component.isComposite = .ok false
      ∧ GetCost ids f .ComCostID weight = .ok (.NodeCost f.opt_vars_ ids.base_linear)
      ∧ (GetCost ids f .ComCostID weight).map Component.isComposite = .ok false := by
  simp only [GetConstraint, GetCost, MakeStateConstraint_eq, MakeJunctionConstraint_eq,
    MakeRangeOfMotionBoxConstraint_eq, MakeTotalTimeConstraint_eq, MakeForcesCost_eq,
    MakeDynamicConstraint, MakeMotionCost]
  simp [Except.map, Component.isComposite]

/-- C7 on the sample biped: the Composites that `GetConstraint(RomBox)` and
`GetConstraint(TotalTime)` return carry the same name string,
"Range-of-Motion Constraints". -/
theorem C7_rom_and_total_time_share_a_name :
    (GetConstraint sampleIds (sampleFactory [.E0, .E1] 1) .RomBox).map Component.compositeName
        = .ok (some "Range-of-Motion Constraints")
      ∧ (GetConstraint sampleIds (sampleFactory [.E0, .E1] 1) .TotalTime).map
          Component.compositeName = .ok (some "Range-of-Motion Constraints") := by
  simp only [GetConstraint, MakeRangeOfMotionBoxConstraint_eq, MakeTotalTimeConstraint_eq]
  simp [Except.map, Component.compositeName]

/-! ## The weight argument -/

/-- C10: for every factory state and any two weights, `GetCost(ForcesCostID, _)`
returns equal trees, and so does `GetCost(ComCostID, _)`, which is the single
`NodeCost` over `base_linear`; `GetCost(RangOfMotionCostID, _)` returns equal
trees exactly when the weights are equal. -/
theorem C10_weight_only_reaches_range_of_motion_cost (ids : Collaborators)
    (f : CostConstraintFactory) (w1 w2 : Scalar) :
    GetCost ids f .ForcesCostID w1 = GetCost ids f .ForcesCostID w2
      ∧ GetCost ids f .ComCostID w1 = GetCost ids f .ComCostID w2
      ∧ GetCost ids f .ComCostID w1 = .ok (.NodeCost f.opt_vars_ ids.base_linear)
      ∧ (GetCost ids f .RangOfMotionCostID w1 = GetCost ids f .RangOfMotionCostID w2
          ↔ w1 = w2) := by
  refine ⟨rfl, rfl, rfl, ?_⟩
  simp [GetCost, ToCost]

end xpp.opt
